import Mathlib

/-!
Verification of the MediaWiki MCP Server request core
(`src/common/utils.ts`, `src/common/config.ts`).

The TypeScript source is shallowly embedded:

* `Record<string, string>` objects become association lists
  `List (String × String)`; the JavaScript object spread
  `{ ...r, k: v }` becomes `setKey r k v`, which overrides the entry for
  `k` in place when present and appends it otherwise, exactly matching
  spread semantics at the level of key/value entries.
* `undefined`/`null` become `Option.none`; JavaScript truthiness of an
  optional string (`restpath ? a : b`, `if (cookies)`, `... || undefined`)
  is made explicit with `String.isEmpty` tests.
* The external collaborators are passed as explicit arguments:
  the active wiki's configuration (`wikiService.getCurrent().config`),
  the `mwn` cookie jar (`Option (String → String)`, `none` when the
  client has no jar; `getCookieStringSync` is the function itself, an
  empty string meaning "no cookies for this URL"), the CSRF token the
  external client would return, and the HTTP transport
  (`String → SendOptions → Except String RawResponse`, `Except.error`
  being a thrown transport failure).
* `async`/`await` sequencing of pure data is collapsed: every embedded
  operation is a pure function of its inputs and the collaborator values.
-/

namespace MediaWikiMCP

/-- Entry lookup in an association-list record (JavaScript property read:
the last write wins, and `setKey` below keeps at most one entry per key). -/
def lookupRec (r : List (String × String)) (k : String) : Option String :=
  match r with
  | [] => none
  | (k', v) :: rest => if k' = k then some v else lookupRec rest k

/-- JavaScript object spread / `Object.assign` single-key update
`{ ...r, k: v }`: override the entry for `k` when present, append otherwise.
The input list is never modified (Lean lists are persistent values). -/
def setKey (r : List (String × String)) (k : String) (v : String) : List (String × String) :=
  if r.any (fun p => p.1 = k) then
    r.map (fun p => if p.1 = k then (k, v) else p)
  else
    r ++ [(k, v)]

/-- JavaScript `Object.assign(base, extra)`: assign every entry of `extra` into `base`,
left to right. -/
def assignAll (base : List (String × String)) (extra : List (String × String)) :
    List (String × String) :=
  extra.foldl (fun acc p => setKey acc p.1 p.2) base

/-- The `WikiConfig` record from `src/common/config.ts`. Optional fields are `Option`;
for `token`, `none` covers both `undefined` and `null` (the source guards
with `token !== undefined && token !== null`). The `private` field is named
`privateWiki` after the destructuring `const { private: privateWiki, token }`
in `withAuth` (`private` is a Lean keyword). -/
structure WikiConfig where
  sitename : String
  server : String
  articlepath : String
  scriptpath : String
  restpath : Option String
  token : Option String
  username : Option String
  password : Option String
  privateWiki : Option Bool
deriving Repr, DecidableEq

/-- JavaScript truthiness of the optional boolean `private` flag:
`undefined` and `false` are falsy. -/
def privTruthy (b : Option Bool) : Bool :=
  b.getD false

/-- The `RequestConfig` record from `src/common/utils.ts`: the headers/body pair
produced by the credential resolver. -/
structure RequestConfig where
  headers : List (String × String)
  body : Option (List (String × String))
deriving Repr, DecidableEq

/-- Function `getCookiesFromJar` from `src/common/utils.ts` lines 47-66.
`cookieJar` is `mwn.cookieJar` (`none` when the client object has no jar);
the function inside is `getCookieStringSync`, returning a possibly empty
cookie string for a URL. `restpath ? … : …` is string truthiness, so an
empty `restpath` also selects the `scriptpath`-based default; `if (cookies)`
and `… || undefined` are likewise truthiness tests on the returned string. -/
def getCookiesFromJar (c : WikiConfig) (cookieJar : Option (String → String)) :
    Option String :=
  match cookieJar with
  | none => none
  | some jar =>
    let restApiUrl :=
      match c.restpath with
      | some p => if p.isEmpty then c.server ++ c.scriptpath ++ "/rest.php" else c.server ++ p
      | none => c.server ++ c.scriptpath ++ "/rest.php"
    let cookies := jar restApiUrl
    if !cookies.isEmpty then
      some cookies
    else if !(jar c.server).isEmpty then
      some (jar c.server)
    else
      none

/-- Function `withAuth` from `src/common/utils.ts` lines 11-40. The active config,
the cookie jar and the CSRF token (`mwn.getCsrfToken()`'s value) are explicit
arguments; `body ? { ...body, token: … } : body` is object truthiness, i.e.
a test for presence of the body. -/
def withAuth (c : WikiConfig) (cookieJar : Option (String → String))
    (csrfToken : String) (headers : List (String × String))
    (body : Option (List (String × String))) (needAuth : Bool) : RequestConfig :=
  if !needAuth && !(privTruthy c.privateWiki) then
    ⟨headers, body⟩
  else
    match c.token with
    | some token =>
      ⟨setKey headers "Authorization" ("Bearer " ++ token), body⟩
    | none =>
      match getCookiesFromJar c cookieJar with
      | none => ⟨headers, body⟩
      | some cookies =>
        ⟨setKey headers "Cookie" cookies,
          match body with
          | some b => some (setKey b "token" csrfToken)
          | none => none⟩

/-- Function `getRestApiBase` from `src/common/utils.ts` lines 68-71; `restpath ? … : …`
is string truthiness. -/
def getRestApiBase (c : WikiConfig) : String :=
  match c.restpath with
  | some p => if p.isEmpty then c.server ++ c.scriptpath ++ "/rest.php" else c.server ++ p
  | none => c.server ++ c.scriptpath ++ "/rest.php"

/-- Modelled from the spec: `USER_AGENT` is imported from `../server.js`,
which is not among the supplied sources; the spec describes it only as
"a fixed identifying string sent as a request header on every call".
A representative constant stands in for it — no claim depends on its
exact value. -/
def USER_AGENT : String :=
  "mediawiki-mcp-server"

/-- One hexadecimal digit (for percent-encoding). -/
def hexDigit (n : Nat) : Char :=
  "0123456789ABCDEF".toList.getD n '0'

/-- Percent-encoding of one character in `application/x-www-form-urlencoded`
style, as `URLSearchParams` uses: alphanumerics and `-._*` pass through,
a space becomes `+`, anything else is `%XX` on the code point (faithful for
the ASCII range; the claims never depend on the encoded text). -/
def encodeFormChar (ch : Char) : String :=
  if ch.isAlphanum || ch = '-' || ch = '_' || ch = '.' || ch = '*' then
    String.mk [ch]
  else if ch = ' ' then
    "+"
  else
    let n := ch.toNat % 256
    String.mk ['%', hexDigit (n / 16), hexDigit (n % 16)]

/-- Form (`application/x-www-form-urlencoded`) encoding of a component string. -/
def encodeForm (s : String) : String :=
  String.join (s.toList.map encodeFormChar)

/-- JavaScript `new URLSearchParams(params).toString()`: `k=v` pairs joined by `&`,
both components form-encoded; the empty map serializes to the empty string. -/
def toQueryString (params : List (String × String)) : String :=
  String.intercalate "&" (params.map (fun p => encodeForm p.1 ++ "=" ++ encodeForm p.2))

/-- The options record of `fetchCore` (`src/common/utils.ts` lines 75-80);
every field is optional, as in the source. Body values are abstracted as
strings (`Record<string, unknown>` entries; no claim inspects them). -/
structure FetchOptions where
  params : Option (List (String × String)) := none
  headers : Option (List (String × String)) := none
  body : Option (List (String × String)) := none
  method : Option String := none
deriving Repr, DecidableEq

/-- The options object handed to `fetch` (`fetchOptions` at
`src/common/utils.ts` lines 103-109). -/
structure SendOptions where
  headers : List (String × String)
  method : String
  body : Option String
deriving Repr, DecidableEq

/-- The `node-fetch` `Response` as far as the embedded code observes it:
status, effective URL, and the outcomes of reading the payload.
`textResult`/`bytesResult` are `none` when `.text()`/`.arrayBuffer()` would
throw. Bytes are `Nat`s taken mod 256 where they are consumed. -/
structure RawResponse where
  status : Nat
  url : String
  textResult : Option String
  bytesResult : Option (List Nat)
deriving Repr, DecidableEq

/-- Property `response.ok` in `node-fetch`: status in the 2xx range. -/
def RawResponse.isOk (r : RawResponse) : Bool :=
  200 ≤ r.status && r.status < 300

/-- A shallow stand-in for `JSON.stringify` on the abstracted (string-valued)
body record; no claim depends on the serialized text. -/
def jsonStringify (body : List (String × String)) : String :=
  "\x7b" ++
    String.intercalate ","
      (body.map (fun p => "\x22" ++ p.1 ++ "\x22:\x22" ++ p.2 ++ "\x22")) ++
  "\x7d"

/-- The protocol-relative check `url.startsWith('//')` of `fetchCore`,
modelled at character level so that it evaluates on literals. -/
def isProtocolRelative (s : String) : Bool :=
  match s.data with
  | '/' :: '/' :: _ => true
  | _ => false

/-- The request `fetchCore` builds before calling `fetch`
(`src/common/utils.ts` lines 82-109): protocol-relative URL normalization,
query-string append when non-empty, the `User-Agent` base header with the
caller's headers `Object.assign`ed over it, method defaulting to `GET`
(`options?.method || 'GET'` is string truthiness), and the JSON-serialized
body when present. -/
def fetchCoreRequest (baseUrl : String) (options : Option FetchOptions) :
    String × SendOptions :=
  let url := if isProtocolRelative baseUrl then "https:" ++ baseUrl else baseUrl
  let url :=
    match options.bind FetchOptions.params with
    | some ps =>
      let queryString := toQueryString ps
      if queryString.isEmpty then url else url ++ "?" ++ queryString
    | none => url
  let requestHeaders :=
    assignAll [("User-Agent", USER_AGENT)] ((options.bind FetchOptions.headers).getD [])
  let method :=
    match options.bind FetchOptions.method with
    | some m => if m.isEmpty then "GET" else m
    | none => "GET"
  (url, ⟨requestHeaders, method, (options.bind FetchOptions.body).map jsonStringify⟩)

/-- The response handling of `fetchCore` (`src/common/utils.ts` lines
110-117): a thrown transport failure propagates unmodified; a non-2xx
response raises the `HTTP error!` message, its body read best-effort with
the fixed fallback text (`.catch(() => 'Could not read error response
body')`). -/
def fetchCoreHandle (outcome : Except String RawResponse) :
    Except String RawResponse :=
  match outcome with
  | Except.error e => Except.error e
  | Except.ok response =>
    if response.isOk then
      Except.ok response
    else
      let errorBody := response.textResult.getD "Could not read error response body"
      Except.error
        ("HTTP error! status: " ++ toString response.status ++
          " for URL: " ++ response.url ++ ". Response: " ++ errorBody)

/-- Function `fetchCore` from `src/common/utils.ts` lines 73-118. The transport
(`fetch`) is the argument `send`, applied exactly once to the built request
— there is no retry — and the single outcome is handled by
`fetchCoreHandle`. -/
def fetchCore (baseUrl : String) (options : Option FetchOptions)
    (send : String → SendOptions → Except String RawResponse) :
    Except String RawResponse :=
  let req := fetchCoreRequest baseUrl options
  fetchCoreHandle (send req.1 req.2)

/-- Function `fetchPageHtml` from `src/common/utils.ts` lines 201-208: `fetchCore`
with no options, then `response.text()`; every thrown error — transport,
HTTP, or body read — is caught and becomes `none`. -/
def fetchPageHtml (url : String)
    (send : String → SendOptions → Except String RawResponse) : Option String :=
  match fetchCore url none send with
  | Except.error _ => none
  | Except.ok response => response.textResult

/-- The standard base64 alphabet. -/
def base64Chars : List Char :=
  "ABCDEFGHIJKLMNOPQRSTUVWXYZabcdefghijklmnopqrstuvwxyz0123456789+/".toList

/-- One base64 digit. -/
def b64c (n : Nat) : Char :=
  base64Chars.getD n 'A'

/-- JavaScript `Buffer.toString('base64')`: standard base64 with `=` padding over a byte
sequence (each input taken mod 256). -/
def base64Encode : List Nat → String
  | [] => ""
  | [a] =>
    let a := a % 256
    String.mk [b64c (a / 4), b64c (a % 4 * 16), '=', '=']
  | [a, b] =>
    let a := a % 256
    let b := b % 256
    String.mk [b64c (a / 4), b64c (a % 4 * 16 + b / 16), b64c (b % 16 * 4), '=']
  | a :: b :: c :: rest =>
    let a' := a % 256
    let b' := b % 256
    let c' := c % 256
    String.mk [b64c (a' / 4), b64c (a' % 4 * 16 + b' / 16),
      b64c (b' % 16 * 4 + c' / 64), b64c (c' % 64)] ++ base64Encode rest

/-- Function `fetchImageAsBase64` from `src/common/utils.ts` lines 210-219:
`fetchCore` with no options, then `response.arrayBuffer()` and a base64
encode; every thrown error is caught and becomes `none`. -/
def fetchImageAsBase64 (url : String)
    (send : String → SendOptions → Except String RawResponse) : Option String :=
  match fetchCore url none send with
  | Except.error _ => none
  | Except.ok response =>
    match response.bytesResult with
    | none => none
    | some bytes => some (base64Encode bytes)

/-- The three authentication modes the spec's invariant names. The bearer
mode carries the token it will send, so that applying a mode never has to
consult the config again. -/
inductive AuthMode where
  | noAuth : AuthMode
  | bearer : String → AuthMode
  | cookieCsrf : AuthMode
deriving Repr, DecidableEq

/-- The mode selection of `withAuth`, as a function of exactly the triple
`(needAuth, config.private, config.token)` — by its type it can consult
nothing else. -/
def authMode (needAuth : Bool) (priv : Bool) (token : Option String) : AuthMode :=
  if !needAuth && !priv then
    AuthMode.noAuth
  else
    match token with
    | some t => AuthMode.bearer t
    | none => AuthMode.cookieCsrf

/-- What each mode does to the request material; takes only the session
material (cookie lookup result, CSRF token) and the request inputs, never
the selection triple. -/
def applyMode (mode : AuthMode) (cookies : Option String) (csrfToken : String)
    (headers : List (String × String)) (body : Option (List (String × String))) :
    RequestConfig :=
  match mode with
  | AuthMode.noAuth => ⟨headers, body⟩
  | AuthMode.bearer t => ⟨setKey headers "Authorization" ("Bearer " ++ t), body⟩
  | AuthMode.cookieCsrf =>
    match cookies with
    | none => ⟨headers, body⟩
    | some cs =>
      ⟨setKey headers "Cookie" cs,
        match body with
        | some b => some (setKey b "token" csrfToken)
        | none => none⟩

/-- A heap of JavaScript objects (records addressed by allocation index),
used to state the frame property of `withAuth` at the granularity the
source works at: object spread allocates, it never writes an existing
object. -/
abbrev Heap := List (List (String × String))

/-- Read the record stored at an address. -/
def Heap.readAt (h : Heap) (a : Nat) : List (String × String) :=
  h.getD a []

/-- Function `withAuth` once more, at heap granularity: `hAddr` is the address of the
caller's headers object and `bAddr` the address of the caller's body object
(absent for a body-less call). Branches that return the inputs unchanged
return the same addresses; branches that spread (`{ ...headers, … }`,
`{ ...body, … }`) allocate fresh objects at the end of the heap. The result
is the new heap plus the addresses of the resolved headers and body. -/
def withAuthHeap (c : WikiConfig) (cookieJar : Option (String → String))
    (csrfToken : String) (heap : Heap) (hAddr : Nat) (bAddr : Option Nat)
    (needAuth : Bool) : Heap × Nat × Option Nat :=
  if !needAuth && !(privTruthy c.privateWiki) then
    (heap, hAddr, bAddr)
  else
    match c.token with
    | some token =>
      (heap ++ [setKey (heap.readAt hAddr) "Authorization" ("Bearer " ++ token)],
        heap.length, bAddr)
    | none =>
      match getCookiesFromJar c cookieJar with
      | none => (heap, hAddr, bAddr)
      | some cookies =>
        let heap' := heap ++ [setKey (heap.readAt hAddr) "Cookie" cookies]
        match bAddr with
        | some ba =>
          (heap' ++ [setKey (heap.readAt ba) "token" csrfToken],
            heap.length, some heap'.length)
        | none => (heap', heap.length, none)

/-- The string `sub` occurs as a contiguous substring of `s`. -/
def containsStr (s sub : String) : Prop :=
  ∃ a b, s = a ++ sub ++ b

/-- The public Wikipedia entry of `defaultConfig` in `src/common/config.ts`
(`token: null` becomes `none`). -/
def publicWiki : WikiConfig :=
  ⟨"Wikipedia", "https://en.wikipedia.org", "/wiki", "/w", none, none, none, none, some false⟩

/-- A public wiki configured with an OAuth2 bearer token. -/
def oauthWiki : WikiConfig :=
  ⟨"Wiki", "https://wiki.example", "/wiki", "/w", none, some "T", none, none, some false⟩

/-- A bot-password (cookie session) wiki with no OAuth token. -/
def botWiki : WikiConfig :=
  ⟨"Wiki", "https://wiki.example", "/wiki", "/w", none, none, some "bot", some "pw", some true⟩

/-- A concrete cookie jar: cookies exist both for the bare server origin and
for the `scriptpath`-based REST URL, with different values, so the two
candidate first-query URLs are told apart. -/
def demoJar : String → String := fun u =>
  if u = "https://x/w/rest.php" then "ACTUAL"
  else if u = "https://x" then "CLAIMED"
  else ""

/-- Spreading with a key a cons head does not carry distributes to the tail. -/
theorem setKey_cons_ne (k₀ : String) (v₀ : String) (rest : List (String × String))
    (k v : String) (h : ¬ k₀ = k) :
    setKey ((k₀, v₀) :: rest) k v = (k₀, v₀) :: setKey rest k v := by
  by_cases ha : rest.any (fun p => p.1 = k) <;>
    simp [setKey, h, ha]

/-- Unfolding `lookupRec` on a cons cell. -/
theorem lookupRec_cons (x y : String) (l : List (String × String)) (k : String) :
    lookupRec ((x, y) :: l) k = if x = k then some y else lookupRec l k := rfl

/-- Replacing the entries for key `k` leaves lookups of other keys alone. -/
theorem lookupRec_replace_ne (rest : List (String × String)) (k v k' : String)
    (h : ¬ k' = k) :
    lookupRec (rest.map (fun p => if p.1 = k then (k, v) else p)) k' =
      lookupRec rest k' := by
  induction rest with
  | nil => rfl
  | cons p tail ih =>
    rcases p with ⟨a, b⟩
    rw [List.map_cons]
    by_cases ha : a = k
    · have hhead : (if ((a, b) : String × String).1 = k then (k, v) else (a, b)) = (k, v) :=
        if_pos ha
      rw [hhead, lookupRec_cons, lookupRec_cons, ih,
        if_neg (fun h' : k = k' => h h'.symm),
        if_neg (fun h' : a = k' => h ((ha.symm.trans h')).symm)]
    · have hhead : (if ((a, b) : String × String).1 = k then (k, v) else (a, b)) = (a, b) :=
        if_neg ha
      rw [hhead, lookupRec_cons, lookupRec_cons, ih]

/-- Lookup after a spread `{ ...r, k: v }`: the set key reads back `v`, every
other key reads as before. -/
theorem lookupRec_setKey (r : List (String × String)) (k v k' : String) :
    lookupRec (setKey r k v) k' = if k' = k then some v else lookupRec r k' := by
  induction r with
  | nil =>
    have hs : setKey [] k v = [(k, v)] := rfl
    rw [hs, lookupRec_cons]
    by_cases hk : k' = k
    · rw [if_pos hk.symm, if_pos hk]
    · rw [if_neg (fun h' : k = k' => hk h'.symm), if_neg hk]
  | cons p rest ih =>
    rcases p with ⟨k₀, v₀⟩
    by_cases h₀ : k₀ = k
    · subst h₀
      have hs : setKey ((k₀, v₀) :: rest) k₀ v =
          (k₀, v) :: rest.map (fun p => if p.1 = k₀ then (k₀, v) else p) := by
        simp [setKey]
      rw [hs, lookupRec_cons, lookupRec_cons]
      by_cases h' : k' = k₀
      · rw [if_pos h'.symm, if_pos h']
      · rw [if_neg (fun hh : k₀ = k' => h' hh.symm), if_neg h',
          if_neg (fun hh : k₀ = k' => h' hh.symm),
          lookupRec_replace_ne rest k₀ v k' h']
    · rw [setKey_cons_ne k₀ v₀ rest k v h₀, lookupRec_cons, lookupRec_cons, ih]
      by_cases hk' : k₀ = k'
      · rw [if_pos hk', if_neg (fun hh : k' = k => h₀ (hk'.trans hh)), if_pos hk']
      · rw [if_neg hk']
        by_cases hk : k' = k
        · rw [if_pos hk, if_pos hk]
        · rw [if_neg hk, if_neg hk, if_neg hk']

/-- Assigning entries that never use key `k'` leaves the lookup of
`k'` alone. -/
theorem lookupRec_assignAll_not_mem (base extra : List (String × String))
    (k' : String) (h : ∀ p ∈ extra, ¬ p.1 = k') :
    lookupRec (assignAll base extra) k' = lookupRec base k' := by
  induction extra generalizing base with
  | nil => rfl
  | cons p tail ih =>
    have hp : ¬ k' = p.1 := fun hk => h p (by simp) hk.symm
    have htail : ∀ q ∈ tail, ¬ q.1 = k' := fun q hq => h q (by simp [hq])
    calc lookupRec (assignAll (setKey base p.1 p.2) tail) k'
        = lookupRec (setKey base p.1 p.2) k' := ih (setKey base p.1 p.2) htail
      _ = lookupRec base k' := by rw [lookupRec_setKey]; simp [hp]

/-- Claim C2: with `private = false` on the active wiki and `needAuth = false`,
`withAuth` returns exactly the input headers and body, adding no
authentication material. -/
theorem withAuth_anonymous_passthrough (c : WikiConfig)
    (jar : Option (String → String)) (csrf : String)
    (h : List (String × String)) (b : Option (List (String × String)))
    (hp : privTruthy c.privateWiki = false) :
    withAuth c jar csrf h b false = ⟨h, b⟩ := by
  simp [withAuth, hp]

/-- Concrete instance of `withAuth_anonymous_passthrough`: the default
public Wikipedia config, an anonymous GET. -/
theorem withAuth_anonymous_passthrough_witness :
    privTruthy (WikiConfig.mk "Wikipedia" "https://en.wikipedia.org" "/wiki" "/w"
        none none none none (some false)).privateWiki = false ∧
    withAuth (WikiConfig.mk "Wikipedia" "https://en.wikipedia.org" "/wiki" "/w"
        none none none none (some false)) none "CSRF"
        [("Accept", "application/json")] none false =
      ⟨[("Accept", "application/json")], none⟩ :=
  ⟨by decide,
    withAuth_anonymous_passthrough _ none "CSRF" [("Accept", "application/json")] none
      (by decide)⟩

/-- Claim C9: `withAuth` factors through `authMode`: the mode selected is a
pure function of the triple `(needAuth, config.private, config.token)` alone
(the type of `authMode` admits nothing else), exactly one of the three modes
is selected (`AuthMode` is an inductive with three constructors), and the
headers/body produced are exactly what `applyMode` does for that mode given
the session material — irrespective of the request's headers and body. -/
theorem withAuth_mode_decomposition (c : WikiConfig)
    (jar : Option (String → String)) (csrf : String)
    (h : List (String × String)) (b : Option (List (String × String)))
    (n : Bool) :
    withAuth c jar csrf h b n =
      applyMode (authMode n (privTruthy c.privateWiki) c.token)
        (getCookiesFromJar c jar) csrf h b := by
  cases n <;> cases hp : privTruthy c.privateWiki <;> cases ht : c.token <;>
    cases hck : getCookiesFromJar c jar <;>
      simp [withAuth, authMode, applyMode, hp, ht, hck]

/-- Claim C10: `withAuth` never mutates the caller's objects. At heap
granularity (`withAuthHeap`), every branch either returns the caller's
addresses untouched or allocates fresh objects past the end of the heap;
the prefix of the heap that existed before the call — in particular the
caller's headers and body objects — is unchanged, whatever the branch. -/
theorem withAuthHeap_preserves_existing_objects (c : WikiConfig)
    (jar : Option (String → String)) (csrf : String) (heap : Heap)
    (hAddr : Nat) (bAddr : Option Nat) (n : Bool) :
    ((withAuthHeap c jar csrf heap hAddr bAddr n).1).take heap.length = heap := by
  unfold withAuthHeap
  by_cases hcond : (!n && !(privTruthy c.privateWiki)) = true
  · simp [hcond, List.take_length]
  · cases ht : c.token with
    | some t => simp [hcond, ht, List.take_left]
    | none =>
      cases hck : getCookiesFromJar c jar with
      | none => simp [hcond, ht, hck, List.take_length]
      | some cookies =>
        cases bAddr with
        | none => simp [hcond, ht, hck, List.take_left]
        | some ba =>
          simp [hcond, ht, hck, List.append_assoc, List.take_left]

/-- Claim C1 fails as stated: with a non-null token but `needAuth = false` on
a non-private wiki, `withAuth` takes the anonymous branch first (lines 18-20
run before the token check at line 22) and adds no `Authorization` header. -/
theorem withAuth_bearer_counterexample :
    oauthWiki.token = some "T" ∧
    privTruthy oauthWiki.privateWiki = false ∧
    lookupRec (withAuth oauthWiki none "CSRF" [] none false).headers
      "Authorization" = none := by
  refine ⟨rfl, rfl, ?_⟩
  rfl

/-- Claim C1 (amended): with a non-null token, whenever authentication is
mandatory (`needAuth` or a private wiki), `withAuth` adds
`Authorization: Bearer <token>` and passes the body through unchanged. -/
theorem withAuth_bearer_token (c : WikiConfig) (jar : Option (String → String))
    (csrf : String) (h : List (String × String))
    (b : Option (List (String × String))) (n : Bool) (t : String)
    (htok : c.token = some t)
    (hauth : (n || privTruthy c.privateWiki) = true) :
    lookupRec (withAuth c jar csrf h b n).headers "Authorization" =
      some ("Bearer " ++ t) ∧
    (withAuth c jar csrf h b n).body = b := by
  have hcond : (!n && !(privTruthy c.privateWiki)) = false := by
    rw [← Bool.not_or, hauth]
    rfl
  simp [withAuth, hcond, htok, lookupRec_setKey]

/-- Concrete instance of `withAuth_bearer_token`: an authenticated call on
the OAuth wiki. -/
theorem withAuth_bearer_token_witness :
    lookupRec (withAuth oauthWiki none "CSRF" [("Accept", "application/json")]
        (some [("source", "x")]) true).headers "Authorization" =
      some ("Bearer " ++ "T") ∧
    (withAuth oauthWiki none "CSRF" [("Accept", "application/json")]
        (some [("source", "x")]) true).body = some [("source", "x")] :=
  withAuth_bearer_token oauthWiki none "CSRF" [("Accept", "application/json")]
    (some [("source", "x")]) true "T" rfl rfl

/-- Claim C3 fails as stated: an empty-string `restpath` is set, yet the
source's truthiness test `restpath ? … : …` selects the `scriptpath`-based
default, so the result is not `server + restpath`. -/
theorem getRestApiBase_empty_restpath_counterexample :
    (WikiConfig.mk "w" "https://x" "/wiki" "/w" (some "") none none none
        none).restpath = some "" ∧
    getRestApiBase (WikiConfig.mk "w" "https://x" "/wiki" "/w" (some "") none
        none none none) = "https://x/w/rest.php" ∧
    getRestApiBase (WikiConfig.mk "w" "https://x" "/wiki" "/w" (some "") none
        none none none) ≠ "https://x" ++ "" := by
  refine ⟨rfl, rfl, ?_⟩
  decide

/-- Claim C3 (amended): `getRestApiBase` returns `server + restpath` when
`restpath` is set to a non-empty string, and
`server + scriptpath + "/rest.php"` when `restpath` is absent or empty. -/
theorem getRestApiBase_spec (c : WikiConfig) :
    (∀ p, c.restpath = some p → p ≠ "" → getRestApiBase c = c.server ++ p) ∧
    ((c.restpath = none ∨ c.restpath = some "") →
      getRestApiBase c = c.server ++ c.scriptpath ++ "/rest.php") := by
  constructor
  · intro p hp hne
    have hemp : p.isEmpty = false := by
      rw [Bool.eq_false_iff, Ne, String.isEmpty_iff]
      exact hne
    simp [getRestApiBase, hp, hemp]
  · have hemp : ("" : String).isEmpty = true := rfl
    rintro (hp | hp) <;> simp [getRestApiBase, hp, hemp]

/-- Concrete instances of `getRestApiBase_spec`: a custom `restpath` and an
absent one. -/
theorem getRestApiBase_spec_witness :
    getRestApiBase (WikiConfig.mk "w" "https://x" "/wiki" "/w" (some "/api")
        none none none none) = "https://x" ++ "/api" ∧
    getRestApiBase publicWiki = "https://en.wikipedia.org" ++ "/w" ++ "/rest.php" :=
  ⟨(getRestApiBase_spec _).1 "/api" rfl (by decide),
    (getRestApiBase_spec publicWiki).2 (Or.inl rfl)⟩

/-- Claim C4 fails as stated: with `restpath` set to the empty string, the
claim's first-query URL `server + restpath` (= the bare server) holds the
cookie `CLAIMED`, yet the code returns `ACTUAL` — it queried
`server + scriptpath + "/rest.php"` first, because `restpath ? … : …` is a
truthiness test, not a presence test. -/
theorem getCookiesFromJar_empty_restpath_counterexample :
    (WikiConfig.mk "w" "https://x" "/wiki" "/w" (some "") none none none
        none).restpath = some "" ∧
    demoJar ("https://x" ++ "") = "CLAIMED" ∧
    getCookiesFromJar (WikiConfig.mk "w" "https://x" "/wiki" "/w" (some "")
        none none none none) (some demoJar) = some "ACTUAL" := by
  refine ⟨rfl, ?_, ?_⟩ <;> rfl

/-- Characterization of `getCookiesFromJar` on a present jar, with the
first-query URL written as `getRestApiBase` (the source duplicates the same
`restpath`-or-default expression in both functions). -/
theorem getCookiesFromJar_eq (c : WikiConfig) (jar : String → String) :
    getCookiesFromJar c (some jar) =
      (if (jar (getRestApiBase c)).isEmpty = false then some (jar (getRestApiBase c))
       else if (jar c.server).isEmpty = false then some (jar c.server)
       else none) := by
  show (if !(jar (getRestApiBase c)).isEmpty then some (jar (getRestApiBase c))
        else if !(jar c.server).isEmpty then some (jar c.server) else none) = _
  by_cases h1 : (jar (getRestApiBase c)).isEmpty <;>
    by_cases h2 : (jar c.server).isEmpty <;>
      simp [h1, h2]

/-- Claim C4 (amended): `getCookiesFromJar` first queries the jar with the
REST API URL (`server + restpath` when `restpath` is set non-empty, else
`server + scriptpath + "/rest.php"` — the value of `getRestApiBase`); if
that yields no cookies it queries the bare server origin; if both yield no
cookies — or the client has no jar at all — it returns `none`, never an
error; and the result depends on the jar only through those two queries. -/
theorem getCookiesFromJar_lookup_order (c : WikiConfig) (jar : String → String) :
    (jar (getRestApiBase c) ≠ "" →
      getCookiesFromJar c (some jar) = some (jar (getRestApiBase c))) ∧
    (jar (getRestApiBase c) = "" → jar c.server ≠ "" →
      getCookiesFromJar c (some jar) = some (jar c.server)) ∧
    (jar (getRestApiBase c) = "" → jar c.server = "" →
      getCookiesFromJar c (some jar) = none) ∧
    getCookiesFromJar c none = none ∧
    (∀ jar' : String → String,
      jar' (getRestApiBase c) = jar (getRestApiBase c) →
      jar' c.server = jar c.server →
      getCookiesFromJar c (some jar') = getCookiesFromJar c (some jar)) := by
  refine ⟨?_, ?_, ?_, rfl, ?_⟩
  · intro h1
    have : (jar (getRestApiBase c)).isEmpty = false := by
      rw [Bool.eq_false_iff, Ne, String.isEmpty_iff]
      exact h1
    rw [getCookiesFromJar_eq, if_pos this]
  · intro h1 h2
    have he1 : (jar (getRestApiBase c)).isEmpty = true := by
      rw [String.isEmpty_iff]
      exact h1
    have he2 : (jar c.server).isEmpty = false := by
      rw [Bool.eq_false_iff, Ne, String.isEmpty_iff]
      exact h2
    rw [getCookiesFromJar_eq]
    simp [he1, he2]
  · intro h1 h2
    have he1 : (jar (getRestApiBase c)).isEmpty = true := by
      rw [String.isEmpty_iff]
      exact h1
    have he2 : (jar c.server).isEmpty = true := by
      rw [String.isEmpty_iff]
      exact h2
    rw [getCookiesFromJar_eq]
    simp [he1, he2]
  · intro jar' hr hs
    rw [getCookiesFromJar_eq, getCookiesFromJar_eq, hr, hs]

/-- Concrete instances of `getCookiesFromJar_lookup_order`: a jar with a
cookie at the REST URL, one with a cookie only at the server origin, and an
empty one. -/
theorem getCookiesFromJar_lookup_order_witness :
    getCookiesFromJar botWiki (some (fun _ => "SESSID=1")) =
      some ((fun _ => "SESSID=1") (getRestApiBase botWiki)) ∧
    getCookiesFromJar botWiki
        (some (fun u => if u = "https://wiki.example" then "SESSID=2" else "")) =
      some ((fun u => if u = "https://wiki.example" then "SESSID=2" else "")
        botWiki.server) ∧
    getCookiesFromJar botWiki (some (fun _ => "")) = none :=
  ⟨(getCookiesFromJar_lookup_order botWiki _).1 (by decide),
    (getCookiesFromJar_lookup_order botWiki _).2.1 (by decide) (by decide),
    (getCookiesFromJar_lookup_order botWiki _).2.2.1 rfl rfl⟩

/-- Claim C5: under cookie-based authentication (authentication mandatory,
token null, a cookie string available) a call with a body — the mutating
PUT/POST shape — resolves to the input body extended with a `token` field
whose value is exactly the fetched CSRF token. -/
theorem withAuth_cookie_csrf_body (c : WikiConfig)
    (jar : Option (String → String)) (csrf : String)
    (h : List (String × String)) (b : List (String × String)) (n : Bool)
    (s : String)
    (hauth : (n || privTruthy c.privateWiki) = true)
    (htok : c.token = none)
    (hck : getCookiesFromJar c jar = some s) :
    (withAuth c jar csrf h (some b) n).body = some (setKey b "token" csrf) ∧
    lookupRec (setKey b "token" csrf) "token" = some csrf := by
  have hcond : (!n && !(privTruthy c.privateWiki)) = false := by
    rw [← Bool.not_or, hauth]
    rfl
  constructor
  · simp [withAuth, hcond, htok, hck]
  · rw [lookupRec_setKey]
    simp

/-- Concrete instance of `withAuth_cookie_csrf_body`: an authenticated PUT
body on the bot-password wiki with a session cookie present. -/
theorem withAuth_cookie_csrf_body_witness :
    (withAuth botWiki (some (fun _ => "SESSID=1")) "CSRF+\\"
        [("Accept", "application/json"), ("Content-Type", "application/json")]
        (some [("source", "hello"), ("comment", "c")]) true).body =
      some (setKey [("source", "hello"), ("comment", "c")] "token" "CSRF+\\") ∧
    lookupRec (setKey [("source", "hello"), ("comment", "c")] "token" "CSRF+\\")
      "token" = some "CSRF+\\" :=
  withAuth_cookie_csrf_body botWiki (some (fun _ => "SESSID=1")) "CSRF+\\"
    [("Accept", "application/json"), ("Content-Type", "application/json")]
    [("source", "hello"), ("comment", "c")] true "SESSID=1" rfl rfl rfl

/-- Claim C6: a non-2xx response makes `fetchCore` raise a single error (the
transport is consulted exactly once — `fetchCore` applies `send` to one
built request and handles that one outcome) whose message contains the
literal status code, the request URL, and the best-effort response body,
where a failed body read contributes the fixed placeholder text instead. -/
theorem fetchCore_http_error (baseUrl : String) (options : Option FetchOptions)
    (send : String → SendOptions → Except String RawResponse) (r : RawResponse)
    (hsend : send (fetchCoreRequest baseUrl options).1
        (fetchCoreRequest baseUrl options).2 = Except.ok r)
    (hstatus : r.isOk = false)
    (hurl : r.url = (fetchCoreRequest baseUrl options).1) :
    ∃ msg, fetchCore baseUrl options send = Except.error msg ∧
      containsStr msg (toString r.status) ∧
      containsStr msg ((fetchCoreRequest baseUrl options).1) ∧
      containsStr msg (r.textResult.getD "Could not read error response body") := by
  refine ⟨"HTTP error! status: " ++ toString r.status ++ " for URL: " ++ r.url ++
    ". Response: " ++ r.textResult.getD "Could not read error response body",
    ?_, ?_, ?_, ?_⟩
  · show fetchCoreHandle (send (fetchCoreRequest baseUrl options).1
        (fetchCoreRequest baseUrl options).2) = _
    rw [hsend]
    simp [fetchCoreHandle, hstatus]
  · exact ⟨"HTTP error! status: ",
      " for URL: " ++ r.url ++ ". Response: " ++
        r.textResult.getD "Could not read error response body",
      by simp [String.append_assoc]⟩
  · rw [← hurl]
    exact ⟨"HTTP error! status: " ++ toString r.status ++ " for URL: ",
      ". Response: " ++ r.textResult.getD "Could not read error response body",
      by simp [String.append_assoc]⟩
  · exact ⟨"HTTP error! status: " ++ toString r.status ++ " for URL: " ++ r.url ++
      ". Response: ", "",
      by simp [String.append_assoc]⟩

/-- Concrete instance of `fetchCore_http_error`: a 404 with a readable body. -/
theorem fetchCore_http_error_witness :
    ∃ msg,
      fetchCore "https://en.wikipedia.org/w/rest.php/v1/page/Missing" none
          (fun _ _ => Except.ok ⟨404,
            "https://en.wikipedia.org/w/rest.php/v1/page/Missing",
            some "Not found", none⟩) = Except.error msg ∧
      containsStr msg (toString (404 : Nat)) ∧
      containsStr msg (fetchCoreRequest
        "https://en.wikipedia.org/w/rest.php/v1/page/Missing" none).1 ∧
      containsStr msg "Not found" :=
  fetchCore_http_error "https://en.wikipedia.org/w/rest.php/v1/page/Missing" none
    (fun _ _ => Except.ok ⟨404,
      "https://en.wikipedia.org/w/rest.php/v1/page/Missing",
      some "Not found", none⟩)
    ⟨404, "https://en.wikipedia.org/w/rest.php/v1/page/Missing",
      some "Not found", none⟩
    rfl (by decide) (by rfl)

/-- Claim C7: the two best-effort helpers return `none` whenever any step of
the fetch throws — the transport call itself, the non-2xx error path, or the
payload read (`textResult`/`bytesResult` being `none` makes the success arm
yield `none`) — and on full success return the response text, respectively
the base64 encoding of the response bytes. By their return type
(`Option String`) no failure can propagate. -/
theorem fetchHelpers_null_on_failure (url : String)
    (send : String → SendOptions → Except String RawResponse) :
    (∀ e, send (fetchCoreRequest url none).1 (fetchCoreRequest url none).2 =
        Except.error e →
      fetchPageHtml url send = none ∧ fetchImageAsBase64 url send = none) ∧
    (∀ r, send (fetchCoreRequest url none).1 (fetchCoreRequest url none).2 =
        Except.ok r → r.isOk = false →
      fetchPageHtml url send = none ∧ fetchImageAsBase64 url send = none) ∧
    (∀ r, send (fetchCoreRequest url none).1 (fetchCoreRequest url none).2 =
        Except.ok r → r.isOk = true →
      fetchPageHtml url send = r.textResult ∧
      fetchImageAsBase64 url send = r.bytesResult.map base64Encode) := by
  refine ⟨?_, ?_, ?_⟩
  · intro e he
    have hc : fetchCore url none send = Except.error e := by
      show fetchCoreHandle (send (fetchCoreRequest url none).1
        (fetchCoreRequest url none).2) = _
      rw [he]
      rfl
    exact ⟨by simp [fetchPageHtml, hc], by simp [fetchImageAsBase64, hc]⟩
  · intro r hr hok
    have hc : fetchCore url none send = Except.error
        ("HTTP error! status: " ++ toString r.status ++ " for URL: " ++ r.url ++
          ". Response: " ++ r.textResult.getD "Could not read error response body") := by
      show fetchCoreHandle (send (fetchCoreRequest url none).1
        (fetchCoreRequest url none).2) = _
      rw [hr]
      simp [fetchCoreHandle, hok]
    exact ⟨by simp [fetchPageHtml, hc], by simp [fetchImageAsBase64, hc]⟩
  · intro r hr hok
    have hc : fetchCore url none send = Except.ok r := by
      show fetchCoreHandle (send (fetchCoreRequest url none).1
        (fetchCoreRequest url none).2) = _
      rw [hr]
      simp [fetchCoreHandle, hok]
    constructor
    · simp [fetchPageHtml, hc]
    · cases hb : r.bytesResult <;> simp [fetchImageAsBase64, hc, hb]

/-- Concrete instances of `fetchHelpers_null_on_failure`: a throwing
transport, and a successful fetch of the three bytes `Man` (base64 `TWFu`). -/
theorem fetchHelpers_null_on_failure_witness :
    (fetchPageHtml "https://a.example/p" (fun _ _ => Except.error "boom") = none ∧
      fetchImageAsBase64 "https://a.example/p" (fun _ _ => Except.error "boom") = none) ∧
    (fetchPageHtml "https://a.example/p"
        (fun _ _ => Except.ok ⟨200, "https://a.example/p", some "<html>ok</html>",
          some [77, 97, 110]⟩) = some "<html>ok</html>" ∧
      fetchImageAsBase64 "https://a.example/p"
        (fun _ _ => Except.ok ⟨200, "https://a.example/p", some "<html>ok</html>",
          some [77, 97, 110]⟩) = some (base64Encode [77, 97, 110])) :=
  ⟨(fetchHelpers_null_on_failure "https://a.example/p"
      (fun _ _ => Except.error "boom")).1 "boom" rfl,
    (fetchHelpers_null_on_failure "https://a.example/p"
      (fun _ _ => Except.ok ⟨200, "https://a.example/p", some "<html>ok</html>",
        some [77, 97, 110]⟩)).2.2
      ⟨200, "https://a.example/p", some "<html>ok</html>", some [77, 97, 110]⟩
      rfl (by decide)⟩

/-- Claim C8 fails as stated: `Object.assign(requestHeaders, options.headers)`
lets a caller-supplied `User-Agent` entry override the fixed identifying
header, so the request built by `fetchCore` carries the caller value
instead. -/
theorem fetchCore_user_agent_counterexample :
    lookupRec (fetchCoreRequest "https://a.example/p"
        (some ⟨none, some [("User-Agent", "someone-else")], none, none⟩)).2.headers
      "User-Agent" = some "someone-else" ∧
    "someone-else" ≠ USER_AGENT := by
  exact ⟨rfl, by decide⟩

/-- Claim C8 (amended): for every request issued through `fetchCore` — which
sends exactly the request `fetchCoreRequest` builds — whenever the
caller-supplied headers do not themselves contain a `User-Agent` key (no
caller in this repository does), the headers sent contain `User-Agent` set
to the fixed identifying string, whatever the params, body, method, and
authentication mode contributed. -/
theorem fetchCore_user_agent (baseUrl : String) (options : Option FetchOptions)
    (send : String → SendOptions → Except String RawResponse)
    (hua : ∀ p ∈ (options.bind FetchOptions.headers).getD [],
      ¬ p.1 = "User-Agent") :
    fetchCore baseUrl options send =
      fetchCoreHandle (send (fetchCoreRequest baseUrl options).1
        (fetchCoreRequest baseUrl options).2) ∧
    lookupRec (fetchCoreRequest baseUrl options).2.headers "User-Agent" =
      some USER_AGENT := by
  refine ⟨rfl, ?_⟩
  show lookupRec (assignAll [("User-Agent", USER_AGENT)]
    ((options.bind FetchOptions.headers).getD [])) "User-Agent" = some USER_AGENT
  rw [lookupRec_assignAll_not_mem _ _ _ hua]
  rfl

/-- Concrete instance of `fetchCore_user_agent`: a JSON GET with an `Accept`
header, query params, and a body. -/
theorem fetchCore_user_agent_witness :
    fetchCore "https://en.wikipedia.org/w/api.php"
        (some ⟨some [("action", "query")], some [("Accept", "application/json")],
          some [("source", "x")], some "POST"⟩)
        (fun _ _ => Except.error "offline") =
      fetchCoreHandle ((fun _ _ => Except.error "offline")
        (fetchCoreRequest "https://en.wikipedia.org/w/api.php"
          (some ⟨some [("action", "query")], some [("Accept", "application/json")],
            some [("source", "x")], some "POST"⟩)).1
        (fetchCoreRequest "https://en.wikipedia.org/w/api.php"
          (some ⟨some [("action", "query")], some [("Accept", "application/json")],
            some [("source", "x")], some "POST"⟩)).2) ∧
    lookupRec (fetchCoreRequest "https://en.wikipedia.org/w/api.php"
        (some ⟨some [("action", "query")], some [("Accept", "application/json")],
          some [("source", "x")], some "POST"⟩)).2.headers "User-Agent" =
      some USER_AGENT :=
  fetchCore_user_agent "https://en.wikipedia.org/w/api.php"
    (some ⟨some [("action", "query")], some [("Accept", "application/json")],
      some [("source", "x")], some "POST"⟩)
    (fun _ _ => Except.error "offline") (by decide)

end MediaWikiMCP
